import Mathlib

set_option maxRecDepth 100000

/-!
Shallow embedding of the rtnetlink message dispatcher of this repository
(src/src/message.rs), its address-family byte mapping
(src/src/address_family_linux.rs) and the GTP link-info attribute codec
(src/src/link/link_info/gtp.rs), together with proofs about them.

Bytes are modelled as natural numbers; where a claim depends on a value
being a byte, an explicit bound below 256 appears in the statement.
-/

/-- Modelled from the spec: the error taxonomy of section 7. `invalidInput`
embeds `AxError::InvalidInput`, the value the dispatcher returns for a type
code outside the registered families. `invalidBuffer expected got` embeds
the structural decode error that `new_checked` of a length-checked buffer
view (netlink-packet-utils, not under src/) reports when the buffer is
shorter than the fixed header the view requires. -/
inductive DecodeError where
  | invalidInput : DecodeError
  | invalidBuffer (expected got : Nat) : DecodeError
deriving DecidableEq, Repr

/-- The open-coded address-family value of src/src/address_family_linux.rs:
named known values plus an `Other` escape carrying the raw byte. -/
inductive AddressFamily where
  | Unspec
  | Local
  | Unix
  | Inet
  | Ax25
  | Ipx
  | Appletalk
  | Netrom
  | Bridge
  | Atmpvc
  | X25
  | Inet6
  | Rose
  | Decnet
  | Netbeui
  | Security
  | Key
  | Route
  | Netlink
  | Packet
  | Ash
  | Econet
  | Atmsvc
  | Rds
  | Sna
  | Irda
  | Pppox
  | Wanpipe
  | Llc
  | Ib
  | Mpls
  | Can
  | Tipc
  | Bluetooth
  | Iucv
  | Rxrpc
  | Isdn
  | Phonet
  | Ieee802154
  | Caif
  | Alg
  | Nfc
  | Vsock
  | Kcm
  | Qipcrtr
  | Smc
  | Xdp
  | Mctp
  | Other (d : Nat)
deriving DecidableEq, Repr

def AF_UNSPEC : Nat := 0

def AF_LOCAL : Nat := 1

def AF_UNIX : Nat := 1

def AF_INET : Nat := 2

def AF_AX25 : Nat := 3

def AF_IPX : Nat := 4

def AF_APPLETALK : Nat := 5

def AF_NETROM : Nat := 6

def AF_BRIDGE : Nat := 7

def AF_ATMPVC : Nat := 8

def AF_X25 : Nat := 9

def AF_INET6 : Nat := 10

def AF_ROSE : Nat := 11

def AF_DECnet : Nat := 12

def AF_NETBEUI : Nat := 13

def AF_SECURITY : Nat := 14

def AF_KEY : Nat := 15

def AF_NETLINK : Nat := 16

def AF_ROUTE : Nat := 16

def AF_PACKET : Nat := 17

def AF_ASH : Nat := 18

def AF_ECONET : Nat := 19

def AF_ATMSVC : Nat := 20

def AF_RDS : Nat := 21

def AF_SNA : Nat := 22

def AF_IRDA : Nat := 23

def AF_PPPOX : Nat := 24

def AF_WANPIPE : Nat := 25

def AF_LLC : Nat := 26

def AF_IB : Nat := 27

def AF_MPLS : Nat := 28

def AF_CAN : Nat := 29

def AF_TIPC : Nat := 30

def AF_BLUETOOTH : Nat := 31

def AF_IUCV : Nat := 32

def AF_RXRPC : Nat := 33

def AF_ISDN : Nat := 34

def AF_PHONET : Nat := 35

def AF_IEEE802154 : Nat := 36

def AF_CAIF : Nat := 37

def AF_ALG : Nat := 38

def AF_NFC : Nat := 39

def AF_VSOCK : Nat := 40

def AF_KCM : Nat := 41

def AF_QIPCRTR : Nat := 42

def AF_SMC : Nat := 43

def AF_XDP : Nat := 44

def AF_MCTP : Nat := 45

/-- Embedding of `impl From<u8> for AddressFamily`: a sequence of guard
arms tried in source order; the first matching constant wins, so the
arms for `AF_UNIX` and `AF_NETLINK` are shadowed by the earlier
`AF_LOCAL` and `AF_ROUTE` arms over the same byte value. -/
def AddressFamily.fromU8 (d : Nat) : AddressFamily :=
  if d = AF_UNSPEC then .Unspec
  else if d = AF_LOCAL then .Local
  else if d = AF_UNIX then .Unix
  else if d = AF_INET then .Inet
  else if d = AF_AX25 then .Ax25
  else if d = AF_IPX then .Ipx
  else if d = AF_APPLETALK then .Appletalk
  else if d = AF_NETROM then .Netrom
  else if d = AF_BRIDGE then .Bridge
  else if d = AF_ATMPVC then .Atmpvc
  else if d = AF_X25 then .X25
  else if d = AF_INET6 then .Inet6
  else if d = AF_ROSE then .Rose
  else if d = AF_DECnet then .Decnet
  else if d = AF_NETBEUI then .Netbeui
  else if d = AF_SECURITY then .Security
  else if d = AF_KEY then .Key
  else if d = AF_ROUTE then .Route
  else if d = AF_NETLINK then .Netlink
  else if d = AF_PACKET then .Packet
  else if d = AF_ASH then .Ash
  else if d = AF_ECONET then .Econet
  else if d = AF_ATMSVC then .Atmsvc
  else if d = AF_RDS then .Rds
  else if d = AF_SNA then .Sna
  else if d = AF_IRDA then .Irda
  else if d = AF_PPPOX then .Pppox
  else if d = AF_WANPIPE then .Wanpipe
  else if d = AF_LLC then .Llc
  else if d = AF_IB then .Ib
  else if d = AF_MPLS then .Mpls
  else if d = AF_CAN then .Can
  else if d = AF_TIPC then .Tipc
  else if d = AF_BLUETOOTH then .Bluetooth
  else if d = AF_IUCV then .Iucv
  else if d = AF_RXRPC then .Rxrpc
  else if d = AF_ISDN then .Isdn
  else if d = AF_PHONET then .Phonet
  else if d = AF_IEEE802154 then .Ieee802154
  else if d = AF_CAIF then .Caif
  else if d = AF_ALG then .Alg
  else if d = AF_NFC then .Nfc
  else if d = AF_VSOCK then .Vsock
  else if d = AF_KCM then .Kcm
  else if d = AF_QIPCRTR then .Qipcrtr
  else if d = AF_SMC then .Smc
  else if d = AF_XDP then .Xdp
  else if d = AF_MCTP then .Mctp
  else .Other d

/-- Embedding of `impl From<AddressFamily> for u8`: every variant maps to
its constant; `Unix` and `Netlink` map to the same bytes as `Local` and
`Route`. -/
def AddressFamily.toU8 : AddressFamily → Nat
  | .Unspec => AF_UNSPEC
  | .Local => AF_LOCAL
  | .Unix => AF_UNIX
  | .Inet => AF_INET
  | .Ax25 => AF_AX25
  | .Ipx => AF_IPX
  | .Appletalk => AF_APPLETALK
  | .Netrom => AF_NETROM
  | .Bridge => AF_BRIDGE
  | .Atmpvc => AF_ATMPVC
  | .X25 => AF_X25
  | .Inet6 => AF_INET6
  | .Rose => AF_ROSE
  | .Decnet => AF_DECnet
  | .Netbeui => AF_NETBEUI
  | .Security => AF_SECURITY
  | .Key => AF_KEY
  | .Route => AF_ROUTE
  | .Netlink => AF_NETLINK
  | .Packet => AF_PACKET
  | .Ash => AF_ASH
  | .Econet => AF_ECONET
  | .Atmsvc => AF_ATMSVC
  | .Rds => AF_RDS
  | .Sna => AF_SNA
  | .Irda => AF_IRDA
  | .Pppox => AF_PPPOX
  | .Wanpipe => AF_WANPIPE
  | .Llc => AF_LLC
  | .Ib => AF_IB
  | .Mpls => AF_MPLS
  | .Can => AF_CAN
  | .Tipc => AF_TIPC
  | .Bluetooth => AF_BLUETOOTH
  | .Iucv => AF_IUCV
  | .Rxrpc => AF_RXRPC
  | .Isdn => AF_ISDN
  | .Phonet => AF_PHONET
  | .Ieee802154 => AF_IEEE802154
  | .Caif => AF_CAIF
  | .Alg => AF_ALG
  | .Nfc => AF_NFC
  | .Vsock => AF_VSOCK
  | .Kcm => AF_KCM
  | .Qipcrtr => AF_QIPCRTR
  | .Smc => AF_SMC
  | .Xdp => AF_XDP
  | .Mctp => AF_MCTP
  | .Other d => d

/-- A family value survives the byte round trip exactly when re-reading its
byte code yields the value itself. `Unix` and `Netlink` do not (their byte
codes are shadowed by `Local` and `Route`), and neither does `Other d`
for a byte `d` that one of the named guard arms captures. -/
def AddressFamily.canonical (v : AddressFamily) : Prop :=
  AddressFamily.fromU8 (AddressFamily.toU8 v) = v

instance (v : AddressFamily) : Decidable v.canonical := by
  unfold AddressFamily.canonical
  infer_instance

/-- Values that lose the variant-level round trip: the two variants whose
byte codes are aliases of earlier guard arms, and `Other` values whose
byte is one of the 46 named codes 0 through 45. -/
def AddressFamily.shadowed : AddressFamily → Bool
  | .Unix => true
  | .Netlink => true
  | .Other d => decide (d < 46)
  | _ => false

theorem AddressFamily.fromU8_of_ge (d : Nat) (h : 46 ≤ d) :
    AddressFamily.fromU8 d = .Other d := by
  unfold AddressFamily.fromU8
  simp only [AF_UNSPEC, AF_LOCAL, AF_UNIX, AF_INET, AF_AX25, AF_IPX,
    AF_APPLETALK, AF_NETROM, AF_BRIDGE, AF_ATMPVC, AF_X25, AF_INET6,
    AF_ROSE, AF_DECnet, AF_NETBEUI, AF_SECURITY, AF_KEY, AF_ROUTE,
    AF_NETLINK, AF_PACKET, AF_ASH, AF_ECONET, AF_ATMSVC, AF_RDS, AF_SNA,
    AF_IRDA, AF_PPPOX, AF_WANPIPE, AF_LLC, AF_IB, AF_MPLS, AF_CAN,
    AF_TIPC, AF_BLUETOOTH, AF_IUCV, AF_RXRPC, AF_ISDN, AF_PHONET,
    AF_IEEE802154, AF_CAIF, AF_ALG, AF_NFC, AF_VSOCK, AF_KCM, AF_QIPCRTR,
    AF_SMC, AF_XDP, AF_MCTP]
  repeat rw [if_neg (by omega)]

/-- Claim C8: for every byte value 0 through 255, converting to an address
family and back to a byte yields the original byte; the conversion from a
byte is total, so it never fails. Holds for the aliased codes 1 and 16 and
for every `Other` byte. -/
theorem addressFamily_byte_roundtrip (b : Nat) (hb : b < 256) :
    AddressFamily.toU8 (AddressFamily.fromU8 b) = b := by
  revert hb
  revert b
  decide

/-- Witness for C8 at the aliased byte 16, whose family value is `Route`. -/
theorem addressFamily_byte_roundtrip_witness :
    16 < 256 ∧ AddressFamily.toU8 (AddressFamily.fromU8 16) = 16 :=
  ⟨by decide, addressFamily_byte_roundtrip 16 (by decide)⟩

/-- Claim C10, counterexample: the variant-level round trip does not fail
only for `Unix` and `Netlink`. The value `Other 2` is neither, yet its
byte code 2 is re-read as `Inet`, so the round trip fails there too. -/
theorem addressFamily_variant_roundtrip_cex :
    AddressFamily.Other 2 ≠ AddressFamily.Unix ∧
    AddressFamily.Other 2 ≠ AddressFamily.Netlink ∧
    AddressFamily.toU8 (AddressFamily.Other 2) = 2 ∧
    AddressFamily.fromU8 2 = AddressFamily.Inet ∧
    AddressFamily.fromU8 (AddressFamily.toU8 (AddressFamily.Other 2)) ≠
      AddressFamily.Other 2 := by
  refine ⟨by decide, by decide, by decide, by decide, by decide⟩

/-- Claim C10, amended: byte 1 decodes to `Local` (never `Unix`) and byte
16 decodes to `Route` (never `Netlink`); no byte decodes to `Unix` or
`Netlink`; and the variant-level round trip holds exactly for values that
are not shadowed, i.e. it fails precisely for `Unix`, `Netlink`, and
`Other d` with `d` one of the named byte codes 0 through 45. -/
theorem addressFamily_variant_roundtrip :
    AddressFamily.fromU8 1 = AddressFamily.Local ∧
    AddressFamily.fromU8 16 = AddressFamily.Route ∧
    (∀ d : Nat, AddressFamily.fromU8 d ≠ AddressFamily.Unix ∧
      AddressFamily.fromU8 d ≠ AddressFamily.Netlink) ∧
    (∀ v : AddressFamily, v.canonical ↔ v.shadowed = false) := by
  refine ⟨by decide, by decide, ?_, ?_⟩
  · intro d
    by_cases h : d < 46
    · interval_cases d <;> exact ⟨by decide, by decide⟩
    · rw [AddressFamily.fromU8_of_ge d (by omega)]
      exact ⟨by simp, by simp⟩
  · intro v
    cases v with
    | Other d =>
      by_cases h : d < 46
      · interval_cases d <;> decide
      · unfold AddressFamily.canonical AddressFamily.shadowed
        rw [show AddressFamily.toU8 (.Other d) = d from rfl,
          AddressFamily.fromU8_of_ge d (by omega)]
        simp
        omega
    | Unspec => decide
    | Local => decide
    | Unix => decide
    | Inet => decide
    | Ax25 => decide
    | Ipx => decide
    | Appletalk => decide
    | Netrom => decide
    | Bridge => decide
    | Atmpvc => decide
    | X25 => decide
    | Inet6 => decide
    | Rose => decide
    | Decnet => decide
    | Netbeui => decide
    | Security => decide
    | Key => decide
    | Route => decide
    | Netlink => decide
    | Packet => decide
    | Ash => decide
    | Econet => decide
    | Atmsvc => decide
    | Rds => decide
    | Sna => decide
    | Irda => decide
    | Pppox => decide
    | Wanpipe => decide
    | Llc => decide
    | Ib => decide
    | Mpls => decide
    | Can => decide
    | Tipc => decide
    | Bluetooth => decide
    | Iucv => decide
    | Rxrpc => decide
    | Isdn => decide
    | Phonet => decide
    | Ieee802154 => decide
    | Caif => decide
    | Alg => decide
    | Nfc => decide
    | Vsock => decide
    | Kcm => decide
    | Qipcrtr => decide
    | Smc => decide
    | Xdp => decide
    | Mctp => decide

/-- Modelled from the spec: the link sub-codec's message value (the
`LinkMessage` of crate module `link`, not under src/). Its header starts
with the interface-family byte; the remaining fixed header bytes and the
trailing attribute bytes are carried opaquely, since the dispatcher treats
the codec as a black box exposing decode, encode and length. -/
structure LinkHeader where
  interface_family : AddressFamily
  rest : List Nat
deriving DecidableEq, Repr

/-- Modelled from the spec: the link message value, a header plus the
attribute bytes that follow it on the wire. -/
structure LinkMessage where
  header : LinkHeader
  attributes : List Nat
deriving DecidableEq, Repr

/-- Modelled from the spec: `LinkMessage::default()`, the value the 4-byte
quirk path starts from before setting the interface-family field. -/
def LinkMessage.default : LinkMessage :=
  { header := { interface_family := .Unspec, rest := List.replicate 15 0 },
    attributes := [] }

/-- Modelled from the spec: the fixed link header occupies 16 bytes
(family byte plus 15 further bytes), so a 4-byte buffer fails the check. -/
def LINK_HEADER_LEN : Nat := 16

/-- Modelled from the spec: `LinkMessageBuffer::new_checked`, the
bounds-checked view constructor; it rejects a buffer shorter than the
fixed link header with a structural error. -/
def LinkMessageBuffer.new_checked (buf : List Nat) :
    Except DecodeError (List Nat) :=
  if buf.length < LINK_HEADER_LEN then
    .error (.invalidBuffer LINK_HEADER_LEN buf.length)
  else
    .ok buf

/-- Modelled from the spec: `LinkMessage::parse` on a checked buffer reads
the interface-family byte through the open-coded mapping and carries the
remaining header bytes and attribute bytes through unchanged. -/
def LinkMessage.parse (buf : List Nat) : Except DecodeError LinkMessage :=
  .ok { header := { interface_family := AddressFamily.fromU8 (buf.headD 0),
                    rest := buf.tail.take 15 },
        attributes := buf.tail.drop 15 }

/-- Modelled from the spec: `LinkMessage`'s own `Emitable::emit`, writing
the family byte followed by the rest of the header and the attributes. -/
def LinkMessage.emit (m : LinkMessage) : List Nat :=
  AddressFamily.toU8 m.header.interface_family :: (m.header.rest ++ m.attributes)

/-- Modelled from the spec: `LinkMessage`'s own `Emitable::buffer_len`. -/
def LinkMessage.buffer_len (m : LinkMessage) : Nat :=
  1 + m.header.rest.length + m.attributes.length

/-- A link message whose emitted payload is well formed: the fixed header
rest has its full 15 bytes, and the family value survives the byte round
trip (a payload byte can only denote a canonical family value). -/
def LinkMessage.wellFormed (m : LinkMessage) : Prop :=
  m.header.rest.length = 15 ∧ m.header.interface_family.canonical

instance (m : LinkMessage) : Decidable m.wellFormed := by
  unfold LinkMessage.wellFormed
  infer_instance

/-- Modelled from the spec: the address sub-codec's header (the
`AddressHeader` of crate module `address`, not under src/): the family
byte first, the remaining fixed header bytes carried opaquely. -/
structure AddressHeader where
  family : AddressFamily
  rest : List Nat
deriving DecidableEq, Repr

/-- Modelled from the spec: `AddressHeader::default()`. -/
def AddressHeader.default : AddressHeader :=
  { family := .Unspec, rest := List.replicate 7 0 }

/-- The address message value of crate module `address` (not under src/):
a header plus an attribute list, here carried as opaque attribute bytes. -/
structure AddressMessage where
  header : AddressHeader
  attributes : List Nat
deriving DecidableEq, Repr

/-- Modelled from the spec: the fixed address header occupies 8 bytes, so
a 4-byte buffer fails the check. -/
def ADDRESS_HEADER_LEN : Nat := 8

/-- Modelled from the spec: `AddressMessageBuffer::new_checked`. -/
def AddressMessageBuffer.new_checked (buf : List Nat) :
    Except DecodeError (List Nat) :=
  if buf.length < ADDRESS_HEADER_LEN then
    .error (.invalidBuffer ADDRESS_HEADER_LEN buf.length)
  else
    .ok buf

/-- Modelled from the spec: `AddressMessage::parse` on a checked buffer. -/
def AddressMessage.parse (buf : List Nat) : Except DecodeError AddressMessage :=
  .ok { header := { family := AddressFamily.fromU8 (buf.headD 0),
                    rest := buf.tail.take 7 },
        attributes := buf.tail.drop 7 }

/-- Modelled from the spec: `AddressMessage`'s own `Emitable::emit`. -/
def AddressMessage.emit (m : AddressMessage) : List Nat :=
  AddressFamily.toU8 m.header.family :: (m.header.rest ++ m.attributes)

/-- Modelled from the spec: `AddressMessage`'s own `Emitable::buffer_len`. -/
def AddressMessage.buffer_len (m : AddressMessage) : Nat :=
  1 + m.header.rest.length + m.attributes.length

/-- An address message whose emitted payload is well formed. -/
def AddressMessage.wellFormed (m : AddressMessage) : Prop :=
  m.header.rest.length = 7 ∧ m.header.family.canonical

instance (m : AddressMessage) : Decidable m.wellFormed := by
  unfold AddressMessage.wellFormed
  infer_instance

def RTM_NEWLINK : Nat := 16

def RTM_DELLINK : Nat := 17

def RTM_GETLINK : Nat := 18

def RTM_SETLINK : Nat := 19

def RTM_NEWADDR : Nat := 20

def RTM_DELADDR : Nat := 21

def RTM_GETADDR : Nat := 22

def RTM_NEWROUTE : Nat := 24

def RTM_DELROUTE : Nat := 25

def RTM_GETROUTE : Nat := 26

def RTM_NEWNEIGH : Nat := 28

def RTM_DELNEIGH : Nat := 29

def RTM_GETNEIGH : Nat := 30

def RTM_NEWRULE : Nat := 32

def RTM_DELRULE : Nat := 33

def RTM_GETRULE : Nat := 34

def RTM_NEWQDISC : Nat := 36

def RTM_DELQDISC : Nat := 37

def RTM_GETQDISC : Nat := 38

def RTM_NEWTCLASS : Nat := 40

def RTM_DELTCLASS : Nat := 41

def RTM_GETTCLASS : Nat := 42

def RTM_NEWTFILTER : Nat := 44

def RTM_DELTFILTER : Nat := 45

def RTM_GETTFILTER : Nat := 46

def RTM_NEWPREFIX : Nat := 52

def RTM_NEWNEIGHTBL : Nat := 64

def RTM_GETNEIGHTBL : Nat := 66

def RTM_SETNEIGHTBL : Nat := 67

def RTM_NEWNSID : Nat := 88

def RTM_DELNSID : Nat := 89

def RTM_GETNSID : Nat := 90

def RTM_NEWCHAIN : Nat := 100

def RTM_DELCHAIN : Nat := 101

def RTM_GETCHAIN : Nat := 102

def RTM_NEWLINKPROP : Nat := 108

def RTM_DELLINKPROP : Nat := 109

/-- The dispatcher sum type of src/src/message.rs, one variant per
operation on one object kind. -/
inductive RouteNetlinkMessage where
  | NewLink (msg : LinkMessage)
  | DelLink (msg : LinkMessage)
  | GetLink (msg : LinkMessage)
  | SetLink (msg : LinkMessage)
  | NewLinkProp (msg : LinkMessage)
  | DelLinkProp (msg : LinkMessage)
  | NewAddress (msg : AddressMessage)
  | DelAddress (msg : AddressMessage)
  | GetAddress (msg : AddressMessage)
deriving DecidableEq, Repr

/-- Embedding of the inner `let msg = match LinkMessageBuffer::new_checked`
block of `parse_with_param` (message.rs lines 89 through 105): on a checked
buffer, delegate to the link codec; on a structural check failure, apply
the 4-byte quirk when the code is the get-link code, else propagate. -/
def RouteNetlinkMessage.parseLinkPayload (buf : List Nat)
    (message_type : Nat) : Except DecodeError LinkMessage :=
  match LinkMessageBuffer.new_checked buf with
  | .ok b => LinkMessage.parse b
  | .error e =>
    if buf.length = 4 ∧ message_type = RTM_GETLINK then
      let d := LinkMessage.default
      .ok { d with header := { d.header with
              interface_family := AddressFamily.fromU8 (buf.headD 0) } }
    else
      .error e

/-- Embedding of the inner `let msg = match AddressMessageBuffer::new_checked`
block of `parse_with_param` (message.rs lines 117 through 137): the
address analogue, with the default header, an empty attribute list and the
quirk gated on the get-address code. -/
def RouteNetlinkMessage.parseAddressPayload (buf : List Nat)
    (message_type : Nat) : Except DecodeError AddressMessage :=
  match AddressMessageBuffer.new_checked buf with
  | .ok b => AddressMessage.parse b
  | .error e =>
    if buf.length = 4 ∧ message_type = RTM_GETADDR then
      let m : AddressMessage :=
        { header := AddressHeader.default, attributes := [] }
      .ok { m with header := { m.header with
              family := AddressFamily.fromU8 (buf.headD 0) } }
    else
      .error e

/-- Embedding of `RouteNetlinkMessage::parse_with_param`: route link codes
to the link block, address codes to the address block, wrap the resulting
message in the variant matching the code, and reject every other code
with the invalid-input error. -/
def RouteNetlinkMessage.parse_with_param (buf : List Nat)
    (message_type : Nat) : Except DecodeError RouteNetlinkMessage :=
  if message_type = RTM_NEWLINK ∨ message_type = RTM_GETLINK ∨
      message_type = RTM_DELLINK ∨ message_type = RTM_SETLINK then
    (RouteNetlinkMessage.parseLinkPayload buf message_type).map fun msg =>
      if message_type = RTM_NEWLINK then .NewLink msg
      else if message_type = RTM_GETLINK then .GetLink msg
      else if message_type = RTM_DELLINK then .DelLink msg
      else .SetLink msg
  else if message_type = RTM_NEWADDR ∨ message_type = RTM_GETADDR ∨
      message_type = RTM_DELADDR then
    (RouteNetlinkMessage.parseAddressPayload buf message_type).map fun msg =>
      if message_type = RTM_NEWADDR then .NewAddress msg
      else if message_type = RTM_GETADDR then .GetAddress msg
      else .DelAddress msg
  else
    .error DecodeError.invalidInput

/-- Embedding of `RouteNetlinkMessage::message_type`. -/
def RouteNetlinkMessage.message_type : RouteNetlinkMessage → Nat
  | .NewLink _ => RTM_NEWLINK
  | .DelLink _ => RTM_DELLINK
  | .GetLink _ => RTM_GETLINK
  | .SetLink _ => RTM_SETLINK
  | .NewLinkProp _ => RTM_NEWLINKPROP
  | .DelLinkProp _ => RTM_DELLINKPROP
  | .NewAddress _ => RTM_NEWADDR
  | .DelAddress _ => RTM_DELADDR
  | .GetAddress _ => RTM_GETADDR

/-- Embedding of `Emitable::buffer_len` for `RouteNetlinkMessage`: pure
delegation to the wrapped message value. -/
def RouteNetlinkMessage.buffer_len : RouteNetlinkMessage → Nat
  | .NewLink msg | .DelLink msg | .GetLink msg | .SetLink msg
  | .NewLinkProp msg | .DelLinkProp msg => msg.buffer_len
  | .NewAddress msg | .DelAddress msg | .GetAddress msg => msg.buffer_len

/-- Embedding of `Emitable::emit` for `RouteNetlinkMessage`: pure
delegation to the wrapped message value. -/
def RouteNetlinkMessage.emit : RouteNetlinkMessage → List Nat
  | .NewLink msg | .DelLink msg | .GetLink msg | .SetLink msg
  | .NewLinkProp msg | .DelLinkProp msg => msg.emit
  | .NewAddress msg | .DelAddress msg | .GetAddress msg => msg.emit

/-- The wrapped payload of a dispatcher value is well formed. -/
def RouteNetlinkMessage.wellFormedPayload : RouteNetlinkMessage → Prop
  | .NewLink msg | .DelLink msg | .GetLink msg | .SetLink msg
  | .NewLinkProp msg | .DelLinkProp msg => msg.wellFormed
  | .NewAddress msg | .DelAddress msg | .GetAddress msg => msg.wellFormed

instance : (m : RouteNetlinkMessage) → Decidable m.wellFormedPayload
  | .NewLink msg => inferInstanceAs (Decidable msg.wellFormed)
  | .DelLink msg => inferInstanceAs (Decidable msg.wellFormed)
  | .GetLink msg => inferInstanceAs (Decidable msg.wellFormed)
  | .SetLink msg => inferInstanceAs (Decidable msg.wellFormed)
  | .NewLinkProp msg => inferInstanceAs (Decidable msg.wellFormed)
  | .DelLinkProp msg => inferInstanceAs (Decidable msg.wellFormed)
  | .NewAddress msg => inferInstanceAs (Decidable msg.wellFormed)
  | .DelAddress msg => inferInstanceAs (Decidable msg.wellFormed)
  | .GetAddress msg => inferInstanceAs (Decidable msg.wellFormed)

/-- Whether a value is one of the two link-property variants, the ones
`message_type` maps to codes 108 and 109. -/
def RouteNetlinkMessage.isLinkPropVariant : RouteNetlinkMessage → Bool
  | .NewLinkProp _ => true
  | .DelLinkProp _ => true
  | _ => false

deriving instance DecidableEq for Except

theorem LinkMessage.new_checked_emit_link (m : LinkMessage) (h : m.wellFormed) :
    LinkMessageBuffer.new_checked m.emit = .ok m.emit := by
  unfold LinkMessageBuffer.new_checked
  rw [if_neg]
  simp only [LinkMessage.emit, List.length_cons, List.length_append, h.1,
    LINK_HEADER_LEN]
  omega

theorem LinkMessage.parse_emit_link (m : LinkMessage) (h : m.wellFormed) :
    LinkMessage.parse m.emit = .ok m := by
  obtain ⟨h15, hcan⟩ := h
  have hc : AddressFamily.fromU8
      (AddressFamily.toU8 m.header.interface_family) =
      m.header.interface_family := hcan
  unfold LinkMessage.parse LinkMessage.emit
  simp only [List.headD_cons, List.tail_cons]
  rw [List.take_left' h15, List.drop_left' h15, hc]

theorem parseLinkPayload_emit (m : LinkMessage) (h : m.wellFormed)
    (t : Nat) : RouteNetlinkMessage.parseLinkPayload m.emit t = .ok m := by
  unfold RouteNetlinkMessage.parseLinkPayload
  rw [LinkMessage.new_checked_emit_link m h]
  exact LinkMessage.parse_emit_link m h

theorem AddressMessage.new_checked_emit_addr (m : AddressMessage)
    (h : m.wellFormed) :
    AddressMessageBuffer.new_checked m.emit = .ok m.emit := by
  unfold AddressMessageBuffer.new_checked
  rw [if_neg]
  simp only [AddressMessage.emit, List.length_cons, List.length_append, h.1,
    ADDRESS_HEADER_LEN]
  omega

theorem AddressMessage.parse_emit_addr (m : AddressMessage) (h : m.wellFormed) :
    AddressMessage.parse m.emit = .ok m := by
  obtain ⟨h7, hcan⟩ := h
  have hc : AddressFamily.fromU8 (AddressFamily.toU8 m.header.family) =
      m.header.family := hcan
  unfold AddressMessage.parse AddressMessage.emit
  simp only [List.headD_cons, List.tail_cons]
  rw [List.take_left' h7, List.drop_left' h7, hc]

theorem parseAddressPayload_emit (m : AddressMessage) (h : m.wellFormed)
    (t : Nat) :
    RouteNetlinkMessage.parseAddressPayload m.emit t = .ok m := by
  unfold RouteNetlinkMessage.parseAddressPayload
  rw [AddressMessage.new_checked_emit_addr m h]
  exact AddressMessage.parse_emit_addr m h

theorem parse_emit_NewLink (m : LinkMessage) (h : m.wellFormed) :
    RouteNetlinkMessage.parse_with_param m.emit RTM_NEWLINK =
      .ok (.NewLink m) := by
  unfold RouteNetlinkMessage.parse_with_param
  rw [if_pos (by decide), parseLinkPayload_emit m h]
  rfl

theorem parse_emit_DelLink (m : LinkMessage) (h : m.wellFormed) :
    RouteNetlinkMessage.parse_with_param m.emit RTM_DELLINK =
      .ok (.DelLink m) := by
  unfold RouteNetlinkMessage.parse_with_param
  rw [if_pos (by decide), parseLinkPayload_emit m h]
  rfl

theorem parse_emit_GetLink (m : LinkMessage) (h : m.wellFormed) :
    RouteNetlinkMessage.parse_with_param m.emit RTM_GETLINK =
      .ok (.GetLink m) := by
  unfold RouteNetlinkMessage.parse_with_param
  rw [if_pos (by decide), parseLinkPayload_emit m h]
  rfl

theorem parse_emit_SetLink (m : LinkMessage) (h : m.wellFormed) :
    RouteNetlinkMessage.parse_with_param m.emit RTM_SETLINK =
      .ok (.SetLink m) := by
  unfold RouteNetlinkMessage.parse_with_param
  rw [if_pos (by decide), parseLinkPayload_emit m h]
  rfl

theorem parse_emit_NewAddress (m : AddressMessage) (h : m.wellFormed) :
    RouteNetlinkMessage.parse_with_param m.emit RTM_NEWADDR =
      .ok (.NewAddress m) := by
  unfold RouteNetlinkMessage.parse_with_param
  rw [if_neg (by decide), if_pos (by decide), parseAddressPayload_emit m h]
  rfl

theorem parse_emit_DelAddress (m : AddressMessage) (h : m.wellFormed) :
    RouteNetlinkMessage.parse_with_param m.emit RTM_DELADDR =
      .ok (.DelAddress m) := by
  unfold RouteNetlinkMessage.parse_with_param
  rw [if_neg (by decide), if_pos (by decide), parseAddressPayload_emit m h]
  rfl

theorem parse_emit_GetAddress (m : AddressMessage) (h : m.wellFormed) :
    RouteNetlinkMessage.parse_with_param m.emit RTM_GETADDR =
      .ok (.GetAddress m) := by
  unfold RouteNetlinkMessage.parse_with_param
  rw [if_neg (by decide), if_pos (by decide), parseAddressPayload_emit m h]
  rfl

/-- Claim C1, counterexample: the emit/decode round trip does not cover
all nine variants. `NewLinkProp` of the default link message has a
well-formed payload and reports type code 108, yet decoding its emitted
bytes with that code yields the invalid-input error, not the value back. -/
theorem newLinkProp_roundtrip_fails :
    (RouteNetlinkMessage.NewLinkProp LinkMessage.default).wellFormedPayload ∧
    RouteNetlinkMessage.parse_with_param
        (RouteNetlinkMessage.NewLinkProp LinkMessage.default).emit
        (RouteNetlinkMessage.NewLinkProp LinkMessage.default).message_type ≠
      .ok (.NewLinkProp LinkMessage.default) :=
  ⟨by decide, by decide⟩

/-- Claim C1, amended: for every constructible message value whose wrapped
payload is well formed and which is not one of the two link-property
variants, decoding the emitted bytes with the reported type code yields
the value back. The round trip holds for the seven variants the decode
routing table covers and fails for `NewLinkProp` and `DelLinkProp`. -/
theorem roundtrip_parse_emit (m : RouteNetlinkMessage)
    (hw : m.wellFormedPayload) (hp : m.isLinkPropVariant = false) :
    RouteNetlinkMessage.parse_with_param m.emit m.message_type = .ok m := by
  cases m with
  | NewLink msg => exact parse_emit_NewLink msg hw
  | DelLink msg => exact parse_emit_DelLink msg hw
  | GetLink msg => exact parse_emit_GetLink msg hw
  | SetLink msg => exact parse_emit_SetLink msg hw
  | NewLinkProp msg => exact Bool.noConfusion hp
  | DelLinkProp msg => exact Bool.noConfusion hp
  | NewAddress msg => exact parse_emit_NewAddress msg hw
  | DelAddress msg => exact parse_emit_DelAddress msg hw
  | GetAddress msg => exact parse_emit_GetAddress msg hw

/-- Witness for the amended C1 at `NewLink` of the default link message. -/
theorem roundtrip_parse_emit_witness :
    (RouteNetlinkMessage.NewLink LinkMessage.default).wellFormedPayload ∧
    (RouteNetlinkMessage.NewLink LinkMessage.default).isLinkPropVariant =
      false ∧
    RouteNetlinkMessage.parse_with_param
        (RouteNetlinkMessage.NewLink LinkMessage.default).emit
        (RouteNetlinkMessage.NewLink LinkMessage.default).message_type =
      .ok (.NewLink LinkMessage.default) :=
  ⟨by decide, rfl, roundtrip_parse_emit _ (by decide) rfl⟩

/-- Claim C2: whenever `parse_with_param` succeeds, the `message_type` of
the produced value equals the type code that was passed in, the 4-byte
quirk paths included. -/
theorem parse_message_type_consistent (buf : List Nat) (t : Nat)
    (m : RouteNetlinkMessage)
    (h : RouteNetlinkMessage.parse_with_param buf t = .ok m) :
    m.message_type = t := by
  unfold RouteNetlinkMessage.parse_with_param at h
  by_cases h1 : t = RTM_NEWLINK ∨ t = RTM_GETLINK ∨ t = RTM_DELLINK ∨
      t = RTM_SETLINK
  · rw [if_pos h1] at h
    cases hx : RouteNetlinkMessage.parseLinkPayload buf t with
    | error e => rw [hx] at h; exact Except.noConfusion h
    | ok msg =>
      rw [hx] at h
      rcases h1 with h1 | h1 | h1 | h1 <;> subst h1 <;>
        (injection h with h2; subst h2; rfl)
  · rw [if_neg h1] at h
    by_cases h2 : t = RTM_NEWADDR ∨ t = RTM_GETADDR ∨ t = RTM_DELADDR
    · rw [if_pos h2] at h
      cases hx : RouteNetlinkMessage.parseAddressPayload buf t with
      | error e => rw [hx] at h; exact Except.noConfusion h
      | ok msg =>
        rw [hx] at h
        rcases h2 with h2 | h2 | h2 <;> subst h2 <;>
          (injection h with h2; subst h2; rfl)
    · rw [if_neg h2] at h
      exact Except.noConfusion h

/-- Witness for C2 at the get-link quirk path: code 18 with the 4-byte
payload produces a value whose reported type code is 18. -/
theorem parse_message_type_consistent_witness :
    (RouteNetlinkMessage.GetLink
      { header := { interface_family := .Local, rest := List.replicate 15 0 },
        attributes := [] }).message_type = 18 :=
  parse_message_type_consistent [1, 0, 0, 0] 18 _ (by decide)

/-- Claim C3, counterexample: `NewLinkProp` reports code 108 and
`DelLinkProp` reports 109, but `parse_with_param` routes neither code
back: both fail with the invalid-input error on a well-formed link
payload, so the routing table is not consistent with `message_type` for
these two variants. -/
theorem linkProp_code_not_routed :
    LinkMessage.wellFormed LinkMessage.default ∧
    (RouteNetlinkMessage.NewLinkProp LinkMessage.default).message_type =
      RTM_NEWLINKPROP ∧
    (RouteNetlinkMessage.DelLinkProp LinkMessage.default).message_type =
      RTM_DELLINKPROP ∧
    RouteNetlinkMessage.parse_with_param LinkMessage.default.emit
      RTM_NEWLINKPROP = .error DecodeError.invalidInput ∧
    RouteNetlinkMessage.parse_with_param LinkMessage.default.emit
      RTM_DELLINKPROP = .error DecodeError.invalidInput :=
  ⟨by decide, rfl, rfl, by decide, by decide⟩

/-- Claim C3, amended: for the seven variants other than `NewLinkProp` and
`DelLinkProp`, the code each variant reports via `message_type` is routed
back to that same variant by `parse_with_param` on a well-formed payload;
codes 108 and 109 are not routed at all. -/
theorem registry_bidirectional_consistency (lm : LinkMessage)
    (am : AddressMessage) (hl : lm.wellFormed) (ha : am.wellFormed) :
    RouteNetlinkMessage.parse_with_param lm.emit
      (RouteNetlinkMessage.NewLink lm).message_type = .ok (.NewLink lm) ∧
    RouteNetlinkMessage.parse_with_param lm.emit
      (RouteNetlinkMessage.DelLink lm).message_type = .ok (.DelLink lm) ∧
    RouteNetlinkMessage.parse_with_param lm.emit
      (RouteNetlinkMessage.GetLink lm).message_type = .ok (.GetLink lm) ∧
    RouteNetlinkMessage.parse_with_param lm.emit
      (RouteNetlinkMessage.SetLink lm).message_type = .ok (.SetLink lm) ∧
    RouteNetlinkMessage.parse_with_param am.emit
      (RouteNetlinkMessage.NewAddress am).message_type =
      .ok (.NewAddress am) ∧
    RouteNetlinkMessage.parse_with_param am.emit
      (RouteNetlinkMessage.DelAddress am).message_type =
      .ok (.DelAddress am) ∧
    RouteNetlinkMessage.parse_with_param am.emit
      (RouteNetlinkMessage.GetAddress am).message_type =
      .ok (.GetAddress am) :=
  ⟨parse_emit_NewLink lm hl, parse_emit_DelLink lm hl,
   parse_emit_GetLink lm hl, parse_emit_SetLink lm hl,
   parse_emit_NewAddress am ha, parse_emit_DelAddress am ha,
   parse_emit_GetAddress am ha⟩

/-- Witness for the amended C3 at the default link and address messages. -/
theorem registry_bidirectional_consistency_witness :
    LinkMessage.wellFormed LinkMessage.default ∧
    AddressMessage.wellFormed
      { header := AddressHeader.default, attributes := [] } ∧
    RouteNetlinkMessage.parse_with_param LinkMessage.default.emit
      (RouteNetlinkMessage.NewLink LinkMessage.default).message_type =
      .ok (.NewLink LinkMessage.default) :=
  ⟨by decide, by decide,
   (registry_bidirectional_consistency LinkMessage.default
     { header := AddressHeader.default, attributes := [] }
     (by decide) (by decide)).1⟩

/-- Claim C4: for every byte `f`, the 4-byte payload `[f, 0, 0, 0]` with
the get-link code 18 decodes to `GetLink` of the default link message with
the interface family set from `f`; the other link codes 16, 17 and 19 fail
with the structural error from the link buffer check. Analogously, the
get-address code 22 decodes to `GetAddress` of the default-header address
message with empty attributes and family set from `f`, while codes 20 and
21 fail with the structural error from the address buffer check. -/
theorem quirk_four_byte_payload (f : Nat) (hf : f < 256) :
    RouteNetlinkMessage.parse_with_param [f, 0, 0, 0] RTM_GETLINK =
      .ok (.GetLink { header := { interface_family := AddressFamily.fromU8 f,
                                  rest := List.replicate 15 0 },
                      attributes := [] }) ∧
    RouteNetlinkMessage.parse_with_param [f, 0, 0, 0] RTM_NEWLINK =
      .error (.invalidBuffer LINK_HEADER_LEN 4) ∧
    RouteNetlinkMessage.parse_with_param [f, 0, 0, 0] RTM_DELLINK =
      .error (.invalidBuffer LINK_HEADER_LEN 4) ∧
    RouteNetlinkMessage.parse_with_param [f, 0, 0, 0] RTM_SETLINK =
      .error (.invalidBuffer LINK_HEADER_LEN 4) ∧
    RouteNetlinkMessage.parse_with_param [f, 0, 0, 0] RTM_GETADDR =
      .ok (.GetAddress { header := { family := AddressFamily.fromU8 f,
                                     rest := List.replicate 7 0 },
                         attributes := [] }) ∧
    RouteNetlinkMessage.parse_with_param [f, 0, 0, 0] RTM_NEWADDR =
      .error (.invalidBuffer ADDRESS_HEADER_LEN 4) ∧
    RouteNetlinkMessage.parse_with_param [f, 0, 0, 0] RTM_DELADDR =
      .error (.invalidBuffer ADDRESS_HEADER_LEN 4) :=
  ⟨rfl, rfl, rfl, rfl, rfl, rfl, rfl⟩

/-- Witness for C4 at the family byte 2 (whose family value is `Inet`). -/
theorem quirk_four_byte_payload_witness :
    2 < 256 ∧
    (RouteNetlinkMessage.parse_with_param [2, 0, 0, 0] RTM_GETLINK =
      .ok (.GetLink { header := { interface_family := AddressFamily.fromU8 2,
                                  rest := List.replicate 15 0 },
                      attributes := [] }) ∧
    RouteNetlinkMessage.parse_with_param [2, 0, 0, 0] RTM_NEWLINK =
      .error (.invalidBuffer LINK_HEADER_LEN 4) ∧
    RouteNetlinkMessage.parse_with_param [2, 0, 0, 0] RTM_DELLINK =
      .error (.invalidBuffer LINK_HEADER_LEN 4) ∧
    RouteNetlinkMessage.parse_with_param [2, 0, 0, 0] RTM_SETLINK =
      .error (.invalidBuffer LINK_HEADER_LEN 4) ∧
    RouteNetlinkMessage.parse_with_param [2, 0, 0, 0] RTM_GETADDR =
      .ok (.GetAddress { header := { family := AddressFamily.fromU8 2,
                                     rest := List.replicate 7 0 },
                         attributes := [] }) ∧
    RouteNetlinkMessage.parse_with_param [2, 0, 0, 0] RTM_NEWADDR =
      .error (.invalidBuffer ADDRESS_HEADER_LEN 4) ∧
    RouteNetlinkMessage.parse_with_param [2, 0, 0, 0] RTM_DELADDR =
      .error (.invalidBuffer ADDRESS_HEADER_LEN 4)) :=
  ⟨by decide, quirk_four_byte_payload 2 (by decide)⟩

/-- The type codes the spec's registry lists beyond the link and address
families: route, neighbor, rule, qdisc, tclass, tfilter, new-prefix,
neighbor-table, namespace-id and chain operations. The source declares
these constants but `parse_with_param` has no arm for any of them. -/
def registryOnlyCodes : List Nat :=
  [ RTM_NEWROUTE, RTM_DELROUTE, RTM_GETROUTE, RTM_NEWNEIGH, RTM_DELNEIGH,
    RTM_GETNEIGH, RTM_NEWRULE, RTM_DELRULE, RTM_GETRULE, RTM_NEWQDISC,
    RTM_DELQDISC, RTM_GETQDISC, RTM_NEWTCLASS, RTM_DELTCLASS, RTM_GETTCLASS,
    RTM_NEWTFILTER, RTM_DELTFILTER, RTM_GETTFILTER, RTM_NEWPREFIX,
    RTM_NEWNEIGHTBL, RTM_GETNEIGHTBL, RTM_SETNEIGHTBL, RTM_NEWNSID,
    RTM_DELNSID, RTM_GETNSID, RTM_NEWCHAIN, RTM_DELCHAIN, RTM_GETCHAIN ]

/-- Claim C5, counterexample: the route code 24 is listed in the spec's
registry, yet `parse_with_param` fails with the invalid-input error on it
even for a 16-byte payload, because the dispatcher routes only link and
address codes. -/
theorem route_code_rejected :
    RouteNetlinkMessage.parse_with_param (List.replicate 16 0) RTM_NEWROUTE =
      .error DecodeError.invalidInput := rfl

/-- Claim C5, amended: every registry code outside the link and address
families — route 24 through 26, neighbor 28 through 30, rule 32 through 34,
qdisc 36 through 38, tclass 40 through 42, tfilter 44 through 46,
new-prefix 52, neighbor-table 64, 66 and 67, namespace-id 88 through 90 and
chain 100 through 102 — fails with the invalid-input error on every
payload; the dispatcher routes no such code to an object sub-codec. -/
theorem unrouted_registry_codes_invalid_input (t : Nat)
    (ht : t ∈ registryOnlyCodes) (buf : List Nat) :
    RouteNetlinkMessage.parse_with_param buf t =
      .error DecodeError.invalidInput := by
  fin_cases ht <;> rfl

/-- Witness for the amended C5 at code 24 with the empty payload. -/
theorem unrouted_registry_codes_invalid_input_witness :
    24 ∈ registryOnlyCodes ∧
    RouteNetlinkMessage.parse_with_param [] 24 =
      .error DecodeError.invalidInput :=
  ⟨by decide, unrouted_registry_codes_invalid_input 24 (by decide) []⟩

/-- Claim C6: for every payload, the unregistered type code 0xFFFF fails
with the invalid-input error — never with a structural decode error and
never with success. -/
theorem unregistered_code_invalid_input (buf : List Nat) :
    RouteNetlinkMessage.parse_with_param buf 65535 =
      .error DecodeError.invalidInput := rfl

/-- Claim C7: `buffer_len` and `emit` of the dispatcher delegate to the
wrapped message value for all nine variants; the dispatcher adds no bytes
of framing of its own, so variants carrying the same inner value emit the
same bytes. -/
theorem emit_buffer_len_delegate (lm : LinkMessage) (am : AddressMessage) :
    ((RouteNetlinkMessage.NewLink lm).buffer_len = lm.buffer_len ∧
      (RouteNetlinkMessage.NewLink lm).emit = lm.emit) ∧
    ((RouteNetlinkMessage.DelLink lm).buffer_len = lm.buffer_len ∧
      (RouteNetlinkMessage.DelLink lm).emit = lm.emit) ∧
    ((RouteNetlinkMessage.GetLink lm).buffer_len = lm.buffer_len ∧
      (RouteNetlinkMessage.GetLink lm).emit = lm.emit) ∧
    ((RouteNetlinkMessage.SetLink lm).buffer_len = lm.buffer_len ∧
      (RouteNetlinkMessage.SetLink lm).emit = lm.emit) ∧
    ((RouteNetlinkMessage.NewLinkProp lm).buffer_len = lm.buffer_len ∧
      (RouteNetlinkMessage.NewLinkProp lm).emit = lm.emit) ∧
    ((RouteNetlinkMessage.DelLinkProp lm).buffer_len = lm.buffer_len ∧
      (RouteNetlinkMessage.DelLinkProp lm).emit = lm.emit) ∧
    ((RouteNetlinkMessage.NewAddress am).buffer_len = am.buffer_len ∧
      (RouteNetlinkMessage.NewAddress am).emit = am.emit) ∧
    ((RouteNetlinkMessage.DelAddress am).buffer_len = am.buffer_len ∧
      (RouteNetlinkMessage.DelAddress am).emit = am.emit) ∧
    ((RouteNetlinkMessage.GetAddress am).buffer_len = am.buffer_len ∧
      (RouteNetlinkMessage.GetAddress am).emit = am.emit) :=
  ⟨⟨rfl, rfl⟩, ⟨rfl, rfl⟩, ⟨rfl, rfl⟩, ⟨rfl, rfl⟩, ⟨rfl, rfl⟩,
   ⟨rfl, rfl⟩, ⟨rfl, rfl⟩, ⟨rfl, rfl⟩, ⟨rfl, rfl⟩⟩

/-- Modelled from the spec: round a length up to the next 4-byte boundary,
the padding rule of the attribute wire encoding. -/
def alignTo4 (n : Nat) : Nat := (n + 3) / 4 * 4

/-- Modelled from the spec: a 16-bit field on the wire, low byte first. -/
def u16le (n : Nat) : List Nat := [n % 256, n / 256 % 256]

/-- Modelled from the spec: the declared-length field of an attribute
buffer view (`NlaBuffer` of netlink-packet-utils, not under src/): the
16-bit length at offset 0, covering the 4-byte header plus the value. -/
def NlaBuffer.lengthField (buf : List Nat) : Nat :=
  buf.headD 0 + 256 * buf.tail.headD 0

/-- Modelled from the spec: the 16-bit kind tag at offset 2. -/
def NlaBuffer.kind (buf : List Nat) : Nat :=
  (buf.drop 2).headD 0 + 256 * (buf.drop 3).headD 0

/-- Modelled from the spec: the value bytes, following the 4-byte header
and running up to the declared length. -/
def NlaBuffer.value (buf : List Nat) : List Nat :=
  (buf.drop 4).take (NlaBuffer.lengthField buf - 4)

/-- Modelled from the spec: a buffer of valid TLV shape — the declared
length is at least the 4-byte header and at most the buffer, the buffer
runs to the 4-byte-aligned end of the attribute with zero padding, and
every element is a byte. -/
def NlaBuffer.wellFormed (buf : List Nat) : Prop :=
  4 ≤ NlaBuffer.lengthField buf ∧
  NlaBuffer.lengthField buf ≤ buf.length ∧
  buf.length = alignTo4 (NlaBuffer.lengthField buf) ∧
  (∀ b ∈ buf, b < 256) ∧
  (∀ b ∈ buf.drop (NlaBuffer.lengthField buf), b = 0)

instance (buf : List Nat) : Decidable (NlaBuffer.wellFormed buf) := by
  unfold NlaBuffer.wellFormed
  infer_instance

/-- Modelled from the spec: `DefaultNla` of netlink-packet-utils (not
under src/), the generic fallback holder that retains the raw kind and the
raw value bytes of an attribute. -/
structure DefaultNla where
  kind : Nat
  value : List Nat
deriving DecidableEq, Repr

/-- Modelled from the spec: `DefaultNla::parse` reads the kind tag and the
value bytes from the buffer view; on a view of valid TLV shape it cannot
fail. -/
def DefaultNla.parse (buf : List Nat) : Except DecodeError DefaultNla :=
  .ok { kind := NlaBuffer.kind buf, value := NlaBuffer.value buf }

/-- Modelled from the spec: `DefaultNla::value_len`. -/
def DefaultNla.value_len (n : DefaultNla) : Nat := n.value.length

/-- Modelled from the spec: `DefaultNla::emit_value`. -/
def DefaultNla.emit_value (n : DefaultNla) : List Nat := n.value

/-- Modelled from the spec: the `Nla` trait's provided emit — write the
16-bit length (header plus value, padding not included), the 16-bit kind,
then the value bytes reported by the implementor, then zero padding to the
next 4-byte boundary. -/
def Nla.emit (kind value_len : Nat) (valueBytes : List Nat) : List Nat :=
  u16le (value_len + 4) ++ u16le kind ++ valueBytes ++
    List.replicate (alignTo4 (value_len + 4) - (value_len + 4)) 0

/-- The GTP link-info attribute set of src/src/link/link_info/gtp.rs: a
single `Other` fallback variant holding a `DefaultNla`. -/
inductive InfoGtp where
  | Other (nla : DefaultNla)
deriving DecidableEq, Repr

/-- Embedding of `Nla::value_len` for `InfoGtp`: delegate to the held
`DefaultNla`. -/
def InfoGtp.value_len : InfoGtp → Nat
  | .Other nla => nla.value_len

/-- Embedding of `Nla::emit_value` for `InfoGtp`: delegate to the held
`DefaultNla`. -/
def InfoGtp.emit_value : InfoGtp → List Nat
  | .Other nla => nla.emit_value

/-- Embedding of `Nla::kind` for `InfoGtp`: delegate to the held
`DefaultNla`. -/
def InfoGtp.kind : InfoGtp → Nat
  | .Other nla => nla.kind

/-- Embedding of `Parseable for InfoGtp`: whatever the kind tag, parse the
buffer as a `DefaultNla` and wrap it in the `Other` fallback. -/
def InfoGtp.parse (buf : List Nat) : Except DecodeError InfoGtp :=
  match DefaultNla.parse buf with
  | .ok nla => .ok (.Other nla)
  | .error e => .error e

/-- The full attribute emit of an `InfoGtp` value through the `Nla`
trait's provided emit, fed by its `kind`, `value_len` and `emit_value`. -/
def InfoGtp.emit (g : InfoGtp) : List Nat :=
  Nla.emit g.kind g.value_len g.emit_value

theorem alignTo4_ge (n : Nat) : n ≤ alignTo4 n := by
  unfold alignTo4
  omega

/-- Claim C9: on every buffer of valid TLV shape, whatever the kind tag,
`InfoGtp::parse` succeeds with the `Other` fallback holding the raw kind
and value bytes, and re-emitting that value through the delegated `kind`,
`value_len` and `emit_value` reproduces the original buffer byte for
byte — no attribute is dropped or altered. -/
theorem infoGtp_fallback_preservation (buf : List Nat)
    (h : NlaBuffer.wellFormed buf) :
    InfoGtp.parse buf =
      .ok (.Other { kind := NlaBuffer.kind buf,
                    value := NlaBuffer.value buf }) ∧
    InfoGtp.emit (.Other { kind := NlaBuffer.kind buf,
                           value := NlaBuffer.value buf }) = buf := by
  obtain ⟨hmin, hmax, hlen, hbytes, hpad⟩ := h
  refine ⟨rfl, ?_⟩
  rcases buf with _ | ⟨b0, _ | ⟨b1, _ | ⟨b2, _ | ⟨b3, rest⟩⟩⟩⟩
  · simp [NlaBuffer.lengthField] at hmin
  · simp [NlaBuffer.lengthField] at hmin hmax; omega
  · simp [NlaBuffer.lengthField] at hmin hmax; omega
  · simp [NlaBuffer.lengthField] at hmin hmax; omega
  · have hb0 : b0 < 256 := hbytes b0 (by simp)
    have hb1 : b1 < 256 := hbytes b1 (by simp)
    have hb2 : b2 < 256 := hbytes b2 (by simp)
    have hb3 : b3 < 256 := hbytes b3 (by simp)
    have hLF : NlaBuffer.lengthField (b0 :: b1 :: b2 :: b3 :: rest) =
        b0 + 256 * b1 := rfl
    rw [hLF] at hmin hmax hlen hpad
    obtain ⟨k, hk⟩ : ∃ k, b0 + 256 * b1 = k + 4 :=
      ⟨b0 + 256 * b1 - 4, by omega⟩
    rw [hk] at hmin hmax hlen hpad
    simp only [List.length_cons] at hmax hlen
    have hdrop : (b0 :: b1 :: b2 :: b3 :: rest).drop (k + 4) =
        rest.drop k := rfl
    rw [hdrop] at hpad
    have hval : NlaBuffer.value (b0 :: b1 :: b2 :: b3 :: rest) =
        rest.take k := by
      unfold NlaBuffer.value
      rw [hLF, hk]
      simp
    have hkind : NlaBuffer.kind (b0 :: b1 :: b2 :: b3 :: rest) =
        b2 + 256 * b3 := rfl
    show Nla.emit (NlaBuffer.kind (b0 :: b1 :: b2 :: b3 :: rest))
        (NlaBuffer.value (b0 :: b1 :: b2 :: b3 :: rest)).length
        (NlaBuffer.value (b0 :: b1 :: b2 :: b3 :: rest)) = _
    rw [hval, hkind]
    have htl : (rest.take k).length = k := by
      rw [List.length_take, Nat.min_eq_left (by omega)]
    unfold Nla.emit u16le
    rw [htl]
    have h1 : (k + 4) % 256 = b0 := by omega
    have h2 : (k + 4) / 256 % 256 = b1 := by omega
    have h3 : (b2 + 256 * b3) % 256 = b2 := by omega
    have h4 : (b2 + 256 * b3) / 256 % 256 = b3 := by omega
    have hrepl : List.replicate (alignTo4 (k + 4) - (k + 4)) 0 =
        rest.drop k := by
      symm
      rw [List.eq_replicate_iff]
      refine ⟨?_, hpad⟩
      rw [List.length_drop]
      have hA : k + 4 ≤ alignTo4 (k + 4) := alignTo4_ge (k + 4)
      omega
    rw [h1, h2, h3, h4, hrepl]
    simp [List.take_append_drop]

/-- Witness for C9 at a concrete attribute: declared length 5 (one value
byte), kind 7, value byte 9, three bytes of zero padding. -/
theorem infoGtp_fallback_preservation_witness :
    NlaBuffer.wellFormed [5, 0, 7, 0, 9, 0, 0, 0] ∧
    (InfoGtp.parse [5, 0, 7, 0, 9, 0, 0, 0] =
      .ok (.Other { kind := NlaBuffer.kind [5, 0, 7, 0, 9, 0, 0, 0],
                    value := NlaBuffer.value [5, 0, 7, 0, 9, 0, 0, 0] }) ∧
    InfoGtp.emit (.Other { kind := NlaBuffer.kind [5, 0, 7, 0, 9, 0, 0, 0],
                           value := NlaBuffer.value [5, 0, 7, 0, 9, 0, 0, 0] }) =
      [5, 0, 7, 0, 9, 0, 0, 0]) :=
  ⟨by decide, infoGtp_fallback_preservation _ (by decide)⟩
